import Mathlib

/-!
Verification of the `clamp` utility described in the repository's blog
content (src/unnamed/part_001).  The post publishes two implementations:

  function clamp(value: number, min: number, max: number): number {
    return Math.min(Math.max(value, min), max);
  }

  function clamp(value: number, min: number, max: number): number {
    if (value < min) { return min; }
    if (value > max) { return max; }
    return value;
  }

JavaScript numbers are modelled as rationals; the parameters `min` and
`max` are rendered as `lo` and `hi` because `min`/`max` are the order
operations in Lean.
-/

namespace PersonalSite

/-- The `Math.min(Math.max(value, min), max)` implementation of `clamp`
from src/unnamed/part_001 (the "Math.min() method" section). -/
def clampMinMax (value lo hi : ℚ) : ℚ :=
  min (max value lo) hi

/-- The sequential bound-check implementation of `clamp` from
src/unnamed/part_001 (the "Sequential Bound Checks method" section). -/
def clampSeq (value lo hi : ℚ) : ℚ :=
  if value < lo then lo
  else if value > hi then hi
  else value

/-- The `Math.min`/`Math.max` implementation embedded as a fallible call:
its body contains no `throw`, so every path returns normally. -/
def clampMinMaxE (value lo hi : ℚ) : Except String ℚ :=
  .ok (min (max value lo) hi)

/-- The sequential bound-check implementation embedded as a fallible call:
its body contains no `throw`, so every path returns normally. -/
def clampSeqE (value lo hi : ℚ) : Except String ℚ :=
  if value < lo then .ok lo
  else if value > hi then .ok hi
  else .ok value

/-- C1: with `lo ≤ hi`, both implementations of `clamp` return `lo` when
`value < lo`, `hi` when `value > hi`, and `value` unchanged otherwise. -/
theorem clamp_spec (value lo hi : ℚ) (h : lo ≤ hi) :
    (value < lo → clampSeq value lo hi = lo ∧ clampMinMax value lo hi = lo) ∧
    (value > hi → clampSeq value lo hi = hi ∧ clampMinMax value lo hi = hi) ∧
    (lo ≤ value → value ≤ hi →
      clampSeq value lo hi = value ∧ clampMinMax value lo hi = value) := by
  refine ⟨fun hv => ⟨?_, ?_⟩, fun hv => ⟨?_, ?_⟩, fun h1 h2 => ⟨?_, ?_⟩⟩
  · simp [clampSeq, hv]
  · simp [clampMinMax, max_eq_right hv.le, min_eq_left h]
  · have hnl : ¬ value < lo := by linarith
    simp [clampSeq, hnl, hv]
  · have hm : max value lo = value := max_eq_left (by linarith)
    simp [clampMinMax, hm, min_eq_right hv.le]
  · simp [clampSeq, not_lt.mpr h1, not_lt.mpr h2]
  · simp [clampMinMax, max_eq_left h1, min_eq_left h2]

/-- Witness for C1 at concrete inputs. -/
theorem clamp_spec_witness :
    clampSeq (-5) 0 100 = 0 ∧ clampMinMax (-5) 0 100 = 0 :=
  (clamp_spec (-5) 0 100 (by norm_num)).1 (by norm_num)

/-- C2: with `lo ≤ hi`, the result of either implementation lies in the
closed interval `[lo, hi]`. -/
theorem clamp_in_range (value lo hi : ℚ) (h : lo ≤ hi) :
    (lo ≤ clampSeq value lo hi ∧ clampSeq value lo hi ≤ hi) ∧
    (lo ≤ clampMinMax value lo hi ∧ clampMinMax value lo hi ≤ hi) := by
  constructor
  · unfold clampSeq
    split_ifs with h1 h2 <;> constructor <;> linarith
  · unfold clampMinMax
    exact ⟨le_min (le_max_right value lo) h, min_le_right _ _⟩

/-- Witness for C2 at concrete inputs. -/
theorem clamp_in_range_witness :
    (0 ≤ clampSeq 150 0 100 ∧ clampSeq 150 0 100 ≤ 100) ∧
    (0 ≤ clampMinMax 150 0 100 ∧ clampMinMax 150 0 100 ≤ 100) :=
  clamp_in_range 150 0 100 (by norm_num)

/-- C3: when `lo ≤ value ≤ hi`, both implementations return `value`
exactly (identity on the interior of the interval). -/
theorem clamp_id_of_mem (value lo hi : ℚ) (h1 : lo ≤ value) (h2 : value ≤ hi) :
    clampSeq value lo hi = value ∧ clampMinMax value lo hi = value := by
  constructor
  · simp [clampSeq, not_lt.mpr h1, not_lt.mpr h2]
  · simp [clampMinMax, max_eq_left h1, min_eq_left h2]

/-- Witness for C3 at concrete inputs. -/
theorem clamp_id_of_mem_witness :
    clampSeq 50 0 100 = 50 ∧ clampMinMax 50 0 100 = 50 :=
  clamp_id_of_mem 50 0 100 (by norm_num) (by norm_num)

/-- C4 counterexample: without the precondition `lo ≤ hi` the sequential
implementation is not idempotent — at `value = 10, lo = 15, hi = 5` the
first application yields 15 and reapplying yields 5. -/
theorem clampSeq_not_idempotent :
    ¬ (clampSeq (clampSeq 10 15 5) 15 5 = clampSeq 10 15 5) := by
  decide

/-- C4 (amended): with the precondition `lo ≤ hi`, both implementations
are idempotent: reapplying `clamp` with the same bounds is the identity. -/
theorem clamp_idempotent (value lo hi : ℚ) (h : lo ≤ hi) :
    clampSeq (clampSeq value lo hi) lo hi = clampSeq value lo hi ∧
    clampMinMax (clampMinMax value lo hi) lo hi = clampMinMax value lo hi := by
  constructor
  · unfold clampSeq
    split_ifs with h1 h2 <;> simp_all <;> linarith
  · unfold clampMinMax
    have hlo : lo ≤ min (max value lo) hi := le_min (le_max_right value lo) h
    rw [max_eq_left hlo, min_eq_left (min_le_right (max value lo) hi)]

/-- Witness for the amended C4 at concrete inputs. -/
theorem clamp_idempotent_witness :
    clampSeq (clampSeq 150 0 100) 0 100 = clampSeq 150 0 100 ∧
    clampMinMax (clampMinMax 150 0 100) 0 100 = clampMinMax 150 0 100 :=
  clamp_idempotent 150 0 100 (by norm_num)

/-- C5: with `lo ≤ hi`, the `Math.min`/`Math.max` implementation and the
sequential bound-check implementation return equal results. -/
theorem clamp_impls_agree (value lo hi : ℚ) (h : lo ≤ hi) :
    clampMinMax value lo hi = clampSeq value lo hi := by
  unfold clampMinMax clampSeq
  split_ifs with h1 h2
  · rw [max_eq_right h1.le, min_eq_left h]
  · rw [max_eq_left (not_lt.mp h1), min_eq_right h2.le]
  · rw [max_eq_left (not_lt.mp h1), min_eq_left (not_lt.mp h2)]

/-- Witness for C5 at concrete inputs. -/
theorem clamp_impls_agree_witness :
    clampMinMax (-5) 0 100 = clampSeq (-5) 0 100 :=
  clamp_impls_agree (-5) 0 100 (by norm_num)

/-- C6: with `lo ≤ hi`, the bounds are fixed points of both
implementations: `clamp lo lo hi = lo` and `clamp hi lo hi = hi`. -/
theorem clamp_boundary (lo hi : ℚ) (h : lo ≤ hi) :
    (clampSeq lo lo hi = lo ∧ clampSeq hi lo hi = hi) ∧
    (clampMinMax lo lo hi = lo ∧ clampMinMax hi lo hi = hi) := by
  refine ⟨⟨?_, ?_⟩, ?_, ?_⟩
  · simp [clampSeq, not_lt.mpr h]
  · simp [clampSeq, not_lt.mpr h, not_lt.mpr (le_refl hi)]
  · simp [clampMinMax, max_self, min_eq_left h]
  · simp [clampMinMax, max_eq_left h, min_self]

/-- Witness for C6 at concrete inputs. -/
theorem clamp_boundary_witness :
    (clampSeq 0 0 100 = 0 ∧ clampSeq 100 0 100 = 100) ∧
    (clampMinMax 0 0 100 = 0 ∧ clampMinMax 100 0 100 = 100) :=
  clamp_boundary 0 100 (by norm_num)

/-- C7: the four concrete example scenarios of the blog post hold for
both implementations: clamp(50,0,100)=50, clamp(-5,0,100)=0,
clamp(150,0,100)=100, and clamp(5,10,10)=10. -/
theorem clamp_examples :
    (clampSeq 50 0 100 = 50 ∧ clampMinMax 50 0 100 = 50) ∧
    (clampSeq (-5) 0 100 = 0 ∧ clampMinMax (-5) 0 100 = 0) ∧
    (clampSeq 150 0 100 = 100 ∧ clampMinMax 150 0 100 = 100) ∧
    (clampSeq 5 10 10 = 10 ∧ clampMinMax 5 10 10 = 10) := by
  decide

/-- C8: `clamp` is deterministic — two calls of either implementation
with equal inputs give equal results.  The embedding as a pure function
of its three arguments reflects that no outside state is read or
written. -/
theorem clamp_deterministic (v1 v2 lo1 lo2 hi1 hi2 : ℚ)
    (hv : v1 = v2) (hlo : lo1 = lo2) (hhi : hi1 = hi2) :
    clampSeq v1 lo1 hi1 = clampSeq v2 lo2 hi2 ∧
    clampMinMax v1 lo1 hi1 = clampMinMax v2 lo2 hi2 := by
  subst hv hlo hhi
  exact ⟨rfl, rfl⟩

/-- Witness for C8 at concrete inputs. -/
theorem clamp_deterministic_witness :
    clampSeq 50 0 100 = clampSeq 50 0 100 ∧
    clampMinMax 50 0 100 = clampMinMax 50 0 100 :=
  clamp_deterministic 50 50 0 0 100 100 rfl rfl rfl

/-- C9: when the bound ordering is violated (`hi < lo`), the
`Math.min`/`Math.max` implementation returns `hi` for every value, the
sequential implementation returns `lo` whenever `value < lo`, and hence
the two implementations disagree on some input with `hi < lo`. -/
theorem clamp_disagree_when_unordered :
    (∀ value lo hi : ℚ, hi < lo → clampMinMax value lo hi = hi) ∧
    (∀ value lo hi : ℚ, value < lo → clampSeq value lo hi = lo) ∧
    (∃ value lo hi : ℚ, hi < lo ∧
      clampMinMax value lo hi ≠ clampSeq value lo hi) := by
  refine ⟨fun value lo hi h => ?_, fun value lo hi hv => ?_, 10, 15, 5, by norm_num, by decide⟩
  · exact min_eq_right (le_trans h.le (le_max_right value lo))
  · simp [clampSeq, hv]

/-- Witness for C9 at concrete inputs. -/
theorem clamp_disagree_when_unordered_witness :
    clampMinMax 10 15 5 = 5 ∧ clampSeq 10 15 5 = 15 :=
  ⟨clamp_disagree_when_unordered.1 10 15 5 (by norm_num),
   clamp_disagree_when_unordered.2.1 10 15 5 (by norm_num)⟩

/-- C10: neither implementation ever signals an error: on every input
triple (including `hi < lo` and `lo = hi`) the fallible embeddings
return `.ok` of the corresponding pure result — the error-guard snippets
of the blog post are not part of either `clamp` body. -/
theorem clamp_never_errors (value lo hi : ℚ) :
    clampMinMaxE value lo hi = .ok (clampMinMax value lo hi) ∧
    clampSeqE value lo hi = .ok (clampSeq value lo hi) := by
  constructor
  · rfl
  · unfold clampSeqE clampSeq
    split_ifs <;> rfl

end PersonalSite
